import Mathlib

/-!
Verification development for the HelpSignal backend (src/scripts/main.py,
src/scripts/tweet_bot.py).  The per-item event-enrichment pipeline is
embedded shallowly: Python strings become Lean `String`/`List Char`,
completion-service calls become explicit response oracles
(`Option String`, with `none` standing for "key missing or call raised"),
and the pipeline's externally visible actions become an explicit effect
trace.  Each embedded function mirrors one Python function of the source,
keeping its name.
-/

namespace HelpSignal

/-! ### Python string primitives on `List Char` -/

/-- Python `str.split(sep)` for a one-character separator: splits on every
occurrence, keeping empty fragments (`"".split(sep) == [""]`). -/
def pySplit (sep : Char) : List Char → List (List Char)
  | [] => [[]]
  | c :: cs =>
    if c = sep then [] :: pySplit sep cs
    else
      match pySplit sep cs with
      | [] => [[c]]
      | g :: gs => (c :: g) :: gs

/-- Python `str.split(sep, 1)`: the part before the first separator, and
`some` of the rest when the separator occurs (`sep in line`). -/
def splitFirst (sep : Char) : List Char → List Char × Option (List Char)
  | [] => ([], none)
  | c :: cs =>
    if c = sep then ([], some cs)
    else
      let r := splitFirst sep cs
      (c :: r.1, r.2)

/-- Python `str.strip()`: drop leading and trailing whitespace. -/
def pyStrip (l : List Char) : List Char :=
  ((l.dropWhile Char.isWhitespace).reverse.dropWhile Char.isWhitespace).reverse

/-- Python `needle in hay` substring test. -/
def containsSub (needle : List Char) : List Char → Bool
  | [] => needle.isEmpty
  | c :: cs => needle.isPrefixOf (c :: cs) || containsSub needle cs

/-- Numeric value of a digit string (the digits are already filtered). -/
def natOfDigits (l : List Char) : Nat :=
  l.foldl (fun n c => 10 * n + (c.toNat - '0'.toNat)) 0

/-- Python `int("".join(filter(str.isdigit, value)))` with the surrounding
`except ValueError: field = 0` handler: keep only digit characters, parse
them, and yield 0 when no digit remains. -/
def pyIntOfDigits (value : List Char) : Int :=
  if (value.filter Char.isDigit).isEmpty then 0
  else (natOfDigits (value.filter Char.isDigit) : Int)

/-- Python `str.lower()` (ASCII, which covers every keyword the source
tests). -/
def pyLower (l : List Char) : List Char := l.map Char.toLower

/-- Python `str.upper()` (ASCII). -/
def pyUpper (l : List Char) : List Char := l.map Char.toUpper

/-- Python slice `s[:n]` on a string, counting characters. -/
def pyTruncate (n : Nat) (s : String) : String := String.mk (s.data.take n)

/-- Whole-string version of `pyStrip`. -/
def strip (s : String) : String := String.mk (pyStrip s.data)

/-! ### classify_crisis (main.py lines 352-390)

The OpenAI call is abstracted as its outcome: `none` when the API key is
absent or the call raised (both return "NOT CRISIS"), `some r` for a
successful response `r`. -/

/-- Embeds `classify_crisis`: on a successful response the code computes
`resp.strip().upper()` and answers "CRISIS" exactly when that string
contains "CRISIS"; every failure path answers "NOT CRISIS". -/
def classify_crisis (resp : Option String) : String :=
  match resp with
  | none => "NOT CRISIS"
  | some r =>
    if containsSub "CRISIS".data (pyUpper (pyStrip r.data)) then "CRISIS"
    else "NOT CRISIS"

/-! ### estimate_impact (main.py lines 393-445) -/

/-- One iteration of the `for line in content.split("\n")` loop of
`estimate_impact`: a line without a colon is ignored; otherwise the part
before the first colon is lowered and stripped and matched by prefix
against "people" / "severity", assigning the digit-value of the rest. -/
def updateImpact (acc : Int × Int) (line : List Char) : Int × Int :=
  match splitFirst ':' line with
  | (_, none) => acc
  | (key, some value) =>
    let k := pyStrip (pyLower key)
    if "people".data.isPrefixOf k then (pyIntOfDigits value, acc.2)
    else if "severity".data.isPrefixOf k then (acc.1, pyIntOfDigits value)
    else acc

/-- The response-parsing loop of `estimate_impact` applied to the stripped
response content. -/
def parseImpact (content : String) : Int × Int :=
  (pySplit '\n' content.data).foldl updateImpact (0, 0)

/-- Embeds `estimate_impact`: (0, 0) when the key is missing or the call
raised, otherwise the parse of the stripped response. -/
def estimate_impact (resp : Option String) : Int × Int :=
  match resp with
  | none => (0, 0)
  | some r => parseImpact (strip r)

/-! ### generate_summary (main.py lines 448-484) -/

/-- Embeds `generate_summary`: the stripped response on success, "" when
the key is missing or the call raised. -/
def generate_summary (resp : Option String) : String :=
  match resp with
  | none => ""
  | some r => strip r

/-! ### suggest_donations (main.py lines 487-524) -/

/-- The hardcoded fallback pair returned when the key is missing or the
call raised. -/
def donationFallback : List String :=
  ["https://www.directrelief.org/", "https://www.unhcr.org/"]

/-- The fragments of a donation response: the code replaces every newline
by a comma, splits on commas, strips each fragment and keeps the non-empty
ones. -/
def donationFragments (content : String) : List String :=
  (((pySplit ',' (content.data.map fun c => if c = '\n' then ',' else c)).map
    pyStrip).filter fun l => !l.isEmpty).map String.mk

/-- Embeds `suggest_donations`: the fallback pair on any failure, and on
success the first at most three fragments of the stripped response. -/
def suggest_donations (resp : Option String) : List String :=
  match resp with
  | none => donationFallback
  | some r => (donationFragments (strip r)).take 3

/-! ### geocode (main.py lines 527-556)

The OpenCage call is abstracted as its outcome: the call raised, or a
(possibly empty) result list of coordinate pairs.  Coordinates are
embedded as rationals; the source only passes them through, so no
floating-point arithmetic is modelled away. -/

/-- Outcome of one OpenCage lookup. -/
inductive GeoOutcome where
  | raised : GeoOutcome
  | results : List (ℚ × ℚ) → GeoOutcome
deriving DecidableEq

/-- Embeds `geocode`: (0, 0) when the key is missing or the location is
empty, when the request raised, or when the result list is empty;
otherwise the first result's coordinates. -/
def geocode (hasKey : Bool) (outcome : GeoOutcome) (location : String) :
    ℚ × ℚ :=
  if !hasKey || location = "" then (0, 0)
  else
    match outcome with
    | .raised => (0, 0)
    | .results [] => (0, 0)
    | .results (g :: _) => g

/-! ### infer_event_type (main.py lines 720-737) -/

/-- Embeds `infer_event_type`: lower-case the text, then test the keyword
groups in the source's order, returning the first group's label that has a
keyword occurring in the text. -/
def infer_event_type (text : String) : String :=
  let lower := pyLower text.data
  if ["war", "conflict", "battle"].any fun k => containsSub k.data lower then
    "War"
  else if ["famine", "hunger", "starvation"].any fun k =>
      containsSub k.data lower then
    "Famine"
  else if ["flood", "storm", "hurricane", "typhoon"].any fun k =>
      containsSub k.data lower then
    "Flood"
  else if ["earthquake", "quake"].any fun k => containsSub k.data lower then
    "Earthquake"
  else if ["drought"].any fun k => containsSub k.data lower then
    "Drought"
  else
    "Other"

/-! ### extract_location (main.py lines 345-349) -/

/-- Embeds `extract_location` exactly as it stands in the source: the def
is a docstring-only body ("Enhanced location extraction from text using
regex patterns ..."), which in Python is a complete function that returns
None for every input — never a string, in particular never "". -/
def extract_location (_text : String) : Option String := none

/-! ### The per-item pipeline: process_event (main.py lines 630-717) -/

/-- A normalized input item as the source adapters produce it
(`title`/`description` default to "" via `article.get(..., "")`; the
pre-extracted location hint may be empty). -/
structure Article where
  title : String
  description : String
  url : String
  location : String
deriving DecidableEq, Repr

/-- The canonical enriched record assembled by `process_event`
(the dict built at main.py lines 692-706). -/
structure EventRecord where
  timestamp : String
  event_id : String
  location : String
  lat : ℚ
  lng : ℚ
  event_type : String
  title : String
  description : String
  summary : String
  people_affected : Int
  severity_score : Int
  donation_links : List String
  source_url : String
deriving DecidableEq, Repr

/-- The external collaborators of one pipeline run, abstracted as response
oracles: each completion call maps the text it is given to `none` (key
missing or the call raised) or `some` response; the geocoder has its own
key flag and per-query outcome; the Twitter credential check gates the
tweet. -/
structure Collab where
  classifyResp : String → Option String
  impactResp : String → Option String
  summaryResp : String → Option String
  donationResp : String → Option String
  geoKey : Bool
  geoOutcome : String → GeoOutcome
  twitterCreds : Bool

/-- Externally visible actions of one `process_event` call, in order:
completion-service calls, sink dispatches, and the social-post attempt. -/
inductive Effect where
  | callClassify : Effect
  | callImpact : Effect
  | callSummary : Effect
  | callGeocode : Effect
  | callDonations : Effect
  | sheetWrite : EventRecord → Effect
  | gcsWrite : String → EventRecord → Effect
  | tweetAttempt : String → Effect
deriving DecidableEq, Repr

/-- Result of processing one item: filtered out by classification, or
enriched into a dispatched record. -/
inductive Outcome where
  | skipped : Outcome
  | dispatched : EventRecord → Outcome
deriving DecidableEq, Repr

/-- Python `article.get("location") or "Unknown"` (main.py line 658): any
falsy hint — in particular the empty string — resolves to "Unknown". -/
def resolveLocation (hint : String) : String :=
  if hint = "" then "Unknown" else hint

/-- The same truthiness resolution when the stored hint is an optional
string, as it is when a source adapter stored the result of
`extract_location`: Python's None and "" are both falsy, so both resolve
to "Unknown". -/
def resolveLocationOpt (hint : Option String) : String :=
  match hint with
  | none => "Unknown"
  | some s => resolveLocation s

/-- The tweet text composed by `tweet_crisis` (main.py lines 764-769)
before truncation, given the record's first donation link. -/
def composeTweet (rec : EventRecord) (link : String) : String :=
  "🚨 Crisis in " ++ rec.location ++ ": " ++ toString rec.people_affected ++
    " affected by " ++ rec.event_type ++ "\n" ++ rec.summary ++
    "\nHelp: " ++ link

/-- Embeds `tweet_crisis` (main.py lines 740-773): with credentials absent
the tweet is skipped; with an empty donation list the composition raises
an IndexError that the function's own handler swallows, so nothing is
posted; otherwise the composed text truncated to 280 characters is posted.
Any exception of the posting call itself is swallowed, so the function
only ever contributes an optional post attempt. -/
def tweet_crisis (creds : Bool) (rec : EventRecord) : List Effect :=
  if !creds then []
  else
    match rec.donation_links with
    | [] => []
    | link :: _ => [.tweetAttempt (pyTruncate 280 (composeTweet rec link))]

/-- The enrichment and assembly steps of `process_event` (main.py lines
650-706), run in source order on an item that passed classification, with
a fresh `eventId` and `timestamp` passed in for `uuid.uuid4()` /
`datetime.now()`. -/
def assembleRecord (c : Collab) (eventId timestamp : String) (a : Article) :
    EventRecord :=
  let fullText := a.title ++ "\n\n" ++ a.description
  let impact := estimate_impact (c.impactResp fullText)
  let summary := generate_summary (c.summaryResp fullText)
  let location := resolveLocation a.location
  let coords := geocode c.geoKey (c.geoOutcome location) location
  let eventType := infer_event_type fullText
  let links := suggest_donations (c.donationResp eventType)
  { timestamp := timestamp
    event_id := eventId
    location := location
    lat := coords.1
    lng := coords.2
    event_type := eventType
    title := a.title
    description := a.description
    summary := summary
    people_affected := impact.1
    severity_score := impact.2
    donation_links := links
    source_url := a.url }

/-- Embeds `process_event`: classify the combined text and stop on
anything but "CRISIS"; otherwise run the enrichment calls in source order,
assemble the record, dispatch it to the tabular and object sinks, and
finally attempt the tweet. -/
def process_event (c : Collab) (eventId timestamp : String) (a : Article) :
    Outcome × List Effect :=
  let fullText := a.title ++ "\n\n" ++ a.description
  let classification := classify_crisis (c.classifyResp fullText)
  if classification ≠ "CRISIS" then (.skipped, [.callClassify])
  else
    let record := assembleRecord c eventId timestamp a
    (.dispatched record,
      [.callClassify, .callImpact, .callSummary, .callGeocode,
        .callDonations, .sheetWrite record, .gcsWrite eventId record] ++
        tweet_crisis c.twitterCreds record)

/-! ### The batch driver: main (main.py lines 776-836) -/

/-- The per-article loop of `main` (lines 822-831): each article is
processed in order; the embedded `process_event` is total (the source
isolates per-item failures with a catch-all), so every article increments
the processed count.  Returns the count and the concatenated effects. -/
def mainLoop (c : Collab) (ids ts : Nat → String) (i : Nat) :
    List Article → Nat × List Effect
  | [] => (0, [])
  | a :: rest =>
    let r := process_event c (ids i) (ts i) a
    let rest' := mainLoop c ids ts (i + 1) rest
    (rest'.1 + 1, r.2 ++ rest'.2)

/-- Embeds the processing phase of `main`: run the loop over the collected
articles starting from index 0. -/
def main (c : Collab) (ids ts : Nat → String) (articles : List Article) :
    Nat × List Effect :=
  mainLoop c ids ts 0 articles

/-! ### Helper lemmas about the string primitives -/

theorem isPrefixOf_nil_eq (n : List Char) :
    n.isPrefixOf ([] : List Char) = n.isEmpty := by
  cases n <;> rfl

theorem isPrefixOf_append_self (m b : List Char) :
    m.isPrefixOf (m ++ b) = true := by
  rw [List.isPrefixOf_iff_prefix]
  exact List.prefix_append m b

theorem containsSub_of_cons {n : List Char} {c : Char} {cs : List Char}
    (h : containsSub n cs = true) : containsSub n (c :: cs) = true := by
  simp [containsSub, h]

theorem containsSub_nil_left (l : List Char) : containsSub [] l = true := by
  cases l <;> simp [containsSub, List.isPrefixOf]

theorem containsSub_self_append (m b : List Char) :
    containsSub m (m ++ b) = true := by
  cases m with
  | nil => simpa using containsSub_nil_left b
  | cons c cs =>
    have h := isPrefixOf_append_self (c :: cs) b
    simp only [List.cons_append] at h ⊢
    simp [containsSub, h]

theorem containsSub_append_mid (m a b : List Char) :
    containsSub m (a ++ m ++ b) = true := by
  induction a with
  | nil =>
    rw [List.nil_append]
    exact containsSub_self_append m b
  | cons c a ih =>
    simp only [List.cons_append]
    exact containsSub_of_cons ih

theorem containsSub_false_cons {n : List Char} {c : Char} {cs : List Char}
    (h : containsSub n (c :: cs) = false) : containsSub n cs = false := by
  simp only [containsSub, Bool.or_eq_false_iff] at h
  exact h.2

theorem splitFirst_of_not_mem {sep : Char} {l : List Char}
    (h : sep ∉ l) : splitFirst sep l = (l, none) := by
  induction l with
  | nil => rfl
  | cons c cs ih =>
    have hc : ¬ c = sep := fun e => h (e ▸ List.mem_cons_self c cs)
    have hcs : sep ∉ cs := fun m => h (List.mem_cons_of_mem c m)
    simp [splitFirst, hc, ih hcs]

theorem splitFirst_append {sep : Char} {k : List Char} (v : List Char)
    (h : sep ∉ k) : splitFirst sep (k ++ sep :: v) = (k, some v) := by
  induction k with
  | nil => simp [splitFirst]
  | cons c cs ih =>
    have hc : ¬ c = sep := fun e => h (e ▸ List.mem_cons_self c cs)
    have hcs : sep ∉ cs := fun m => h (List.mem_cons_of_mem c m)
    simp [splitFirst, hc, ih hcs]

theorem splitFirst_fst_append (sep : Char) (l : List Char) :
    ∃ r, l = (splitFirst sep l).1 ++ r := by
  induction l with
  | nil => exact ⟨[], rfl⟩
  | cons c cs ih =>
    by_cases hc : c = sep
    · exact ⟨c :: cs, by simp [splitFirst, hc]⟩
    · obtain ⟨r, hr⟩ := ih
      exact ⟨r, by simpa [splitFirst, hc] using congrArg (c :: ·) hr⟩

theorem pySplit_ne_nil (sep : Char) (l : List Char) :
    pySplit sep l ≠ [] := by
  induction l with
  | nil => simp [pySplit]
  | cons c cs ih =>
    by_cases hc : c = sep
    · simp [pySplit, hc]
    · simp only [pySplit, if_neg hc]
      cases h : pySplit sep cs with
      | nil => exact absurd h ih
      | cons g gs => simp

theorem pySplit_append (sep : Char) (a b : List Char) :
    pySplit sep (a ++ sep :: b) = pySplit sep a ++ pySplit sep b := by
  induction a with
  | nil => simp [pySplit]
  | cons c a ih =>
    by_cases hc : c = sep
    · simp [pySplit, hc, ih]
    · have hne := pySplit_ne_nil sep a
      simp only [List.cons_append, pySplit, if_neg hc]
      simp only [List.append_eq]
      rw [ih]
      cases h : pySplit sep a with
      | nil => exact absurd h hne
      | cons g gs => simp

theorem pyIntOfDigits_nonneg (v : List Char) : 0 ≤ pyIntOfDigits v := by
  rw [pyIntOfDigits]
  split
  · exact le_refl 0
  · exact Int.natCast_nonneg _

theorem pyIntOfDigits_no_digits {v : List Char}
    (h : ∀ ch ∈ v, ch.isDigit = false) : pyIntOfDigits v = 0 := by
  have hv : v.filter Char.isDigit = [] := by
    rw [List.filter_eq_nil_iff]
    intro ch hch
    simp [h ch hch]
  simp [pyIntOfDigits, hv]

theorem pyTruncate_length_le (n : Nat) (s : String) :
    (pyTruncate n s).data.length ≤ n :=
  s.data.length_take_le n

theorem pyTruncate_of_le {n : Nat} {s : String}
    (h : s.data.length ≤ n) : pyTruncate n s = s := by
  cases s with
  | mk data => simp [pyTruncate, List.take_of_length_le h]

/-! ### Helper lemmas about the pipeline functions -/

theorem updateImpact_nonneg {acc : Int × Int} (line : List Char)
    (h1 : 0 ≤ acc.1) (h2 : 0 ≤ acc.2) :
    0 ≤ (updateImpact acc line).1 ∧ 0 ≤ (updateImpact acc line).2 := by
  rw [updateImpact]
  split
  · exact ⟨h1, h2⟩
  · dsimp only
    split
    · exact ⟨pyIntOfDigits_nonneg _, h2⟩
    · split
      · exact ⟨h1, pyIntOfDigits_nonneg _⟩
      · exact ⟨h1, h2⟩

theorem foldl_updateImpact_nonneg (lines : List (List Char))
    (acc : Int × Int) (h1 : 0 ≤ acc.1) (h2 : 0 ≤ acc.2) :
    0 ≤ (lines.foldl updateImpact acc).1 ∧
      0 ≤ (lines.foldl updateImpact acc).2 := by
  induction lines generalizing acc with
  | nil => exact ⟨h1, h2⟩
  | cons line rest ih =>
    have h := updateImpact_nonneg line h1 h2
    exact ih (updateImpact acc line) h.1 h.2

theorem parseImpact_nonneg (content : String) :
    0 ≤ (parseImpact content).1 ∧ 0 ≤ (parseImpact content).2 :=
  foldl_updateImpact_nonneg _ _ le_rfl le_rfl

theorem geocode_fail {o : GeoOutcome}
    (h : o = .raised ∨ o = .results []) (k : Bool) (loc : String) :
    geocode k o loc = (0, 0) := by
  rcases h with h | h <;> subst h <;> rw [geocode] <;> split <;> rfl

theorem donationFragments_ne_empty {s : String} {c : String}
    (h : s ∈ donationFragments c) : s ≠ "" := by
  rw [donationFragments] at h
  obtain ⟨l, hl, hsl⟩ := List.mem_map.mp h
  have hne : ¬l.isEmpty := by
    have := (List.mem_filter.mp hl).2
    simpa using this
  intro hs
  subst hsl
  apply hne
  have : l = [] := congrArg String.data hs
  simp [this]

theorem containsSub_eq_true_iff {n l : List Char} :
    containsSub n l = true ↔ ∃ a b, l = a ++ n ++ b := by
  constructor
  · induction l with
    | nil =>
      intro h
      simp only [containsSub, List.isEmpty_iff] at h
      exact ⟨[], [], by simp [h]⟩
    | cons c cs ih =>
      intro h
      simp only [containsSub, Bool.or_eq_true] at h
      rcases h with h | h
      · rw [List.isPrefixOf_iff_prefix] at h
        obtain ⟨b, hb⟩ := h
        exact ⟨[], b, by simp [hb]⟩
      · obtain ⟨a, b, hab⟩ := ih h
        exact ⟨c :: a, b, by simp [hab]⟩
  · rintro ⟨a, b, rfl⟩
    exact containsSub_append_mid n a b

theorem dropWhile_append_decomp (p : Char → Bool) (a : List Char)
    {n : List Char} (b : List Char) (hn : n ≠ [])
    (hnp : ∀ c ∈ n, p c = false) :
    ∃ a', (a ++ n ++ b).dropWhile p = a' ++ n ++ b := by
  induction a with
  | nil =>
    cases n with
    | nil => exact absurd rfl hn
    | cons x xs =>
      have hx : p x = false := hnp x (List.mem_cons_self x xs)
      exact ⟨[], by simp [List.dropWhile_cons, hx]⟩
  | cons c a ih =>
    by_cases hc : p c = true
    · obtain ⟨a', ha'⟩ := ih
      refine ⟨a', ?_⟩
      simpa [List.dropWhile_cons, hc] using ha'
    · exact ⟨c :: a, by simp [List.dropWhile_cons, hc]⟩

theorem containsSub_pyStrip {n l : List Char}
    (hnp : ∀ c ∈ n, c.isWhitespace = false)
    (h : containsSub n l = true) : containsSub n (pyStrip l) = true := by
  rcases eq_or_ne n [] with rfl | hn
  · exact containsSub_nil_left _
  · obtain ⟨a, b, rfl⟩ := containsSub_eq_true_iff.mp h
    obtain ⟨a', ha'⟩ := dropWhile_append_decomp Char.isWhitespace a b hn hnp
    have hnp' : ∀ c ∈ n.reverse, c.isWhitespace = false := by
      intro c hc
      exact hnp c (List.mem_reverse.mp hc)
    have hrev : (a' ++ n ++ b).reverse =
        b.reverse ++ n.reverse ++ a'.reverse := by
      simp [List.reverse_append, List.append_assoc]
    obtain ⟨a'', ha''⟩ := dropWhile_append_decomp Char.isWhitespace b.reverse
      a'.reverse (by simpa using hn) hnp'
    rw [pyStrip, ha', hrev, ha'']
    have : (a'' ++ n.reverse ++ a'.reverse).reverse =
        a' ++ n ++ a''.reverse := by
      simp [List.reverse_append, List.append_assoc]
    rw [this]
    exact containsSub_append_mid n a' a''.reverse

theorem containsSub_self (n : List Char) : containsSub n n = true := by
  have h := containsSub_self_append n []
  simpa using h

theorem containsSub_append_right {n b : List Char} (a : List Char)
    (h : containsSub n b = true) : containsSub n (a ++ b) = true := by
  induction a with
  | nil => simpa using h
  | cons c a ih =>
    rw [List.cons_append]
    exact containsSub_of_cons ih

theorem containsSub_append_left {n a : List Char} (b : List Char)
    (h : containsSub n a = true) : containsSub n (a ++ b) = true := by
  rw [containsSub_eq_true_iff] at h ⊢
  obtain ⟨x, y, hx⟩ := h
  exact ⟨x, y ++ b, by simp [hx]⟩

theorem containsSub_trans {n m l : List Char}
    (hm : containsSub m l = true) (hn : containsSub n m = true) :
    containsSub n l = true := by
  rw [containsSub_eq_true_iff] at hm hn ⊢
  obtain ⟨a, b, ha⟩ := hm
  obtain ⟨x, y, hx⟩ := hn
  exact ⟨a ++ x, y ++ b, by simp [ha, hx]⟩

theorem toUpper_whitespace {c : Char} (h : c.isWhitespace = true) :
    (c.toUpper).isWhitespace = true := by
  simp only [Char.isWhitespace, Bool.or_eq_true, decide_eq_true_eq] at h
  rcases h with ((rfl | rfl) | rfl) | rfl <;> decide

theorem containsSub_upper_strip {r : String}
    (h : containsSub "CRISIS".data (pyUpper r.data) = true) :
    containsSub "CRISIS".data (pyUpper (pyStrip r.data)) = true := by
  obtain ⟨a, b, hab⟩ := containsSub_eq_true_iff.mp h
  rw [pyUpper] at hab
  rw [List.map_eq_append_iff] at hab
  obtain ⟨s, t, hst, hs, ht⟩ := hab
  rw [List.map_eq_append_iff] at hs
  obtain ⟨a0, n0, ha0n0, ha0, hn0⟩ := hs
  have hn0ws : ∀ c ∈ n0, c.isWhitespace = false := by
    intro c hc
    by_contra hws
    have hws' : c.isWhitespace = true := by
      cases hw : c.isWhitespace
      · exact absurd hw hws
      · rfl
    have hmem : c.toUpper ∈ "CRISIS".data := hn0 ▸ List.mem_map_of_mem _ hc
    have hCRISIS : ∀ x ∈ "CRISIS".data, x.isWhitespace = false := by decide
    have hfalse := hCRISIS _ hmem
    rw [toUpper_whitespace hws'] at hfalse
    exact absurd hfalse (by decide)
  have hsub : containsSub n0 r.data = true := by
    rw [containsSub_eq_true_iff]
    exact ⟨a0, t, by rw [hst, ha0n0, List.append_assoc]⟩
  have hn0ne : n0 ≠ [] := by
    intro he
    rw [he] at hn0
    exact absurd hn0.symm (by decide)
  have hstrip := containsSub_pyStrip hn0ws hsub
  obtain ⟨a1, b1, hab1⟩ := containsSub_eq_true_iff.mp hstrip
  rw [containsSub_eq_true_iff]
  refine ⟨pyUpper a1, pyUpper b1, ?_⟩
  rw [pyUpper, hab1]
  simp [pyUpper, hn0]

theorem process_event_skipped {c : Collab} {eventId timestamp : String}
    {a : Article}
    (h : classify_crisis (c.classifyResp (a.title ++ "\n\n" ++ a.description))
        ≠ "CRISIS") :
    process_event c eventId timestamp a = (.skipped, [.callClassify]) := by
  rw [process_event]
  simp [h]

theorem process_event_crisis {c : Collab} {eventId timestamp : String}
    {a : Article}
    (h : classify_crisis (c.classifyResp (a.title ++ "\n\n" ++ a.description))
        = "CRISIS") :
    process_event c eventId timestamp a =
      (.dispatched (assembleRecord c eventId timestamp a),
        [.callClassify, .callImpact, .callSummary, .callGeocode,
          .callDonations,
          .sheetWrite (assembleRecord c eventId timestamp a),
          .gcsWrite eventId (assembleRecord c eventId timestamp a)] ++
          tweet_crisis c.twitterCreds
            (assembleRecord c eventId timestamp a)) := by
  rw [process_event]
  simp [h]

theorem process_event_dispatched {c : Collab} {eventId timestamp : String}
    {a : Article} {r : EventRecord} {effs : List Effect}
    (h : process_event c eventId timestamp a = (.dispatched r, effs)) :
    r = assembleRecord c eventId timestamp a ∧
      effs = [.callClassify, .callImpact, .callSummary, .callGeocode,
        .callDonations, .sheetWrite r, .gcsWrite eventId r] ++
        tweet_crisis c.twitterCreds r := by
  by_cases hc : classify_crisis
      (c.classifyResp (a.title ++ "\n\n" ++ a.description)) = "CRISIS"
  · rw [process_event_crisis hc] at h
    have h1 := congrArg Prod.fst h
    have h2 := congrArg Prod.snd h
    simp only at h1 h2
    have hr : assembleRecord c eventId timestamp a = r := by
      injection h1
    subst hr
    exact ⟨rfl, h2.symm⟩
  · rw [process_event_skipped hc] at h
    exact absurd (congrArg Prod.fst h) (by simp)

theorem mainLoop_count (c : Collab) (ids ts : Nat → String) (i : Nat)
    (articles : List Article) :
    (mainLoop c ids ts i articles).1 = articles.length := by
  induction articles generalizing i with
  | nil => rfl
  | cons a rest ih => simp [mainLoop, ih]

/-! ### Concrete fixtures used by the witness theorems -/

/-- A concrete item for witnesses. -/
def sampleArticle : Article :=
  { title := "Flood devastates Jakarta"
    description := "Thousands displaced after monsoon floods."
    url := "https://news.example/1"
    location := "Jakarta" }

/-- A concrete collaborator bundle for witnesses: every completion call
succeeds, the geocoder raises. -/
def sampleCollab : Collab :=
  { classifyResp := fun _ => some "CRISIS"
    impactResp := fun _ => some "People Affected: 5,000\nSeverity Score: 60"
    summaryResp := fun _ => some "Severe flooding has displaced thousands."
    donationResp := fun _ => some "https://www.rescue.org/\nhttps://www.unhcr.org/"
    geoKey := true
    geoOutcome := fun _ => .raised
    twitterCreds := true }

/-- The sample collaborators with the classification call failing. -/
def noCrisisCollab : Collab :=
  { sampleCollab with classifyResp := fun _ => none }

/-- A constant id generator for witnesses. -/
def constId : Nat → String := fun _ => "id-0"

/-- A constant timestamp generator for witnesses. -/
def constTs : Nat → String := fun _ => "2026-01-01T00:00:00+00:00"

/-! ### The claims -/

/-- C5: `estimate_impact` scans every line of a line-oriented "key: value"
format, matches keys case-insensitively by the prefixes "people" and
"severity", keeps only the digit characters of the value before integer
parsing, yields 0 for a field whose value has no digits instead of
failing, and silently ignores any other malformed line; in particular
"People Affected: 1,200\nSeverity Score: 75" yields (1200, 75) and
"People Affected: many\nSeverity: high" yields (0, 0). -/
theorem claim_C5_estimate_impact_parsing :
    estimate_impact
        (some "People Affected: 1,200\nSeverity Score: 75") = (1200, 75) ∧
    estimate_impact
        (some "People Affected: many\nSeverity: high") = (0, 0) ∧
    (∀ acc line, ':' ∉ line → updateImpact acc line = acc) ∧
    (∀ v, (∀ ch ∈ v, ch.isDigit = false) → pyIntOfDigits v = 0) ∧
    (∀ acc key value, ':' ∉ key →
      "people".data.isPrefixOf (pyStrip (pyLower key)) = true →
      updateImpact acc (key ++ ':' :: value) = (pyIntOfDigits value, acc.2)) ∧
    (∀ acc key value, ':' ∉ key →
      "people".data.isPrefixOf (pyStrip (pyLower key)) = false →
      "severity".data.isPrefixOf (pyStrip (pyLower key)) = true →
      updateImpact acc (key ++ ':' :: value) = (acc.1, pyIntOfDigits value)) ∧
    (∀ acc a b, (pySplit '\n' (a ++ '\n' :: b)).foldl updateImpact acc =
      (pySplit '\n' b).foldl updateImpact
        ((pySplit '\n' a).foldl updateImpact acc)) := by
  refine ⟨by decide, by decide, ?_, fun v h => pyIntOfDigits_no_digits h,
    ?_, ?_, ?_⟩
  · intro acc line h
    rw [updateImpact, splitFirst_of_not_mem h]
  · intro acc key value hk hp
    rw [updateImpact, splitFirst_append value hk]
    simp [hp]
  · intro acc key value hk hp hs
    rw [updateImpact, splitFirst_append value hk]
    simp [hp, hs]
  · intro acc a b
    rw [pySplit_append, List.foldl_append]

/-- Witness for C5: the line-step projections of the theorem applied at
concrete inputs. -/
theorem claim_C5_witness :
    updateImpact (3, 4) "no colon here".data = (3, 4) ∧
    updateImpact (3, 4) ("PEOPLE hurt".data ++ ':' :: " 1a2".data) =
      (12, 4) ∧
    updateImpact (3, 4) ("  Severity Level ".data ++ ':' :: " high".data) =
      (3, 0) := by
  refine ⟨claim_C5_estimate_impact_parsing.2.2.1 (3, 4) "no colon here".data
      (by decide), ?_, ?_⟩
  · have h := claim_C5_estimate_impact_parsing.2.2.2.2.1 (3, 4)
      "PEOPLE hurt".data " 1a2".data (by decide) (by decide)
    simpa using h
  · have h := claim_C5_estimate_impact_parsing.2.2.2.2.2.1 (3, 4)
      "  Severity Level ".data " high".data (by decide) (by decide) (by decide)
    simpa using h

/-- C6: `infer_event_type` is deterministic and total — in this embedding
a function — always returning one of the six labels, and because the
keyword groups are tested in the source's order, a text containing both a
"war" and a "flood" keyword classifies as War. -/
theorem claim_C6_infer_event_type (text : String) :
    (infer_event_type text = "War" ∨ infer_event_type text = "Famine" ∨
     infer_event_type text = "Flood" ∨ infer_event_type text = "Earthquake" ∨
     infer_event_type text = "Drought" ∨ infer_event_type text = "Other") ∧
    (containsSub "war".data (pyLower text.data) = true →
     containsSub "flood".data (pyLower text.data) = true →
     infer_event_type text = "War") := by
  constructor
  · rw [infer_event_type]
    split
    · exact Or.inl rfl
    · split
      · exact Or.inr (Or.inl rfl)
      · split
        · exact Or.inr (Or.inr (Or.inl rfl))
        · split
          · exact Or.inr (Or.inr (Or.inr (Or.inl rfl)))
          · split
            · exact Or.inr (Or.inr (Or.inr (Or.inr (Or.inl rfl))))
            · exact Or.inr (Or.inr (Or.inr (Or.inr (Or.inr rfl))))
  · intro h1 _
    rw [infer_event_type]
    rw [if_pos]
    simp [h1]

/-- Witness for C6: the theorem applied to a text containing both "war"
and "flood". -/
theorem claim_C6_witness :
    infer_event_type "War and flood in the valley" = "War" :=
  (claim_C6_infer_event_type "War and flood in the valley").2
    (by decide) (by decide)

/-- C7: on a successful response, `suggest_donations` splits on newlines
and commas, trims whitespace, drops empty fragments and returns the first
at most three fragments in their original order; on the spec's example it
yields exactly three entries with order preserved and the fourth fragment
dropped. -/
theorem claim_C7_suggest_donations :
    suggest_donations (some ("Red Cross, https://redcross.org\n" ++
        "UNHCR, https://unhcr.org\nExtra, https://x.org\nIgnored")) =
      ["Red Cross", "https://redcross.org", "UNHCR"] ∧
    (∀ r, suggest_donations (some r) = (donationFragments (strip r)).take 3) ∧
    (∀ r, (suggest_donations (some r)).length ≤ 3) ∧
    (∀ r, "" ∉ suggest_donations (some r)) := by
  refine ⟨by decide, fun r => rfl, fun r => ?_, fun r hmem => ?_⟩
  · rw [suggest_donations]
    exact List.length_take_le 3 _
  · rw [suggest_donations] at hmem
    exact donationFragments_ne_empty (List.mem_of_mem_take hmem) rfl

/-- Witness for C7: the theorem's clauses at a concrete response. -/
theorem claim_C7_witness :
    (suggest_donations (some "a, b, c, d")).length ≤ 3 ∧
    "" ∉ suggest_donations (some "a, b, c, d") :=
  ⟨claim_C7_suggest_donations.2.2.1 "a, b, c, d",
   claim_C7_suggest_donations.2.2.2 "a, b, c, d"⟩

/-- C10: `classify_crisis` returns one of exactly the two strings
"CRISIS" and "NOT CRISIS"; it returns "CRISIS" whenever the upper-cased
response contains "CRISIS" anywhere (stripping cannot remove an
occurrence); a successful response of exactly "NOT CRISIS" therefore
yields "CRISIS"; and "NOT CRISIS" is returned only when the call failed
or the processed response contains no occurrence of "CRISIS". -/
theorem claim_C10_classify_crisis (resp : Option String) :
    (classify_crisis resp = "CRISIS" ∨
      classify_crisis resp = "NOT CRISIS") ∧
    (∀ r, resp = some r →
      containsSub "CRISIS".data (pyUpper r.data) = true →
      classify_crisis resp = "CRISIS") ∧
    classify_crisis (some "NOT CRISIS") = "CRISIS" ∧
    (classify_crisis resp = "NOT CRISIS" →
      resp = none ∨ ∃ r, resp = some r ∧
        containsSub "CRISIS".data (pyUpper (pyStrip r.data)) = false) := by
  refine ⟨?_, ?_, by decide, ?_⟩
  · cases resp with
    | none => exact Or.inr rfl
    | some r =>
      rw [classify_crisis]
      split
      · exact Or.inl rfl
      · exact Or.inr rfl
  · rintro r rfl h
    rw [classify_crisis, if_pos (containsSub_upper_strip h)]
  · intro h
    cases resp with
    | none => exact Or.inl rfl
    | some r =>
      refine Or.inr ⟨r, rfl, ?_⟩
      cases hcc : containsSub "CRISIS".data (pyUpper (pyStrip r.data)) with
      | false => rfl
      | true =>
        rw [classify_crisis, if_pos hcc] at h
        exact absurd h (by decide)

/-- Witness for C10: the theorem's containment clause at a concrete
successful response whose text mentions a crisis in lower case. -/
theorem claim_C10_witness :
    classify_crisis (some " a crisis unfolding ") = "CRISIS" :=
  (claim_C10_classify_crisis (some " a crisis unfolding ")).2.1
    " a crisis unfolding " rfl (by decide)

/-- Counterexample to C2: a successful impact response "Severity: 150"
yields severity_score 150, outside the claimed interval [0, 100] — the
code never clamps the parsed value. -/
theorem claim_C2_counterexample :
    estimate_impact (some "Severity: 150") = (0, 150) ∧
    ¬((estimate_impact (some "Severity: 150")).2 ≤ 100) := by
  constructor <;> decide

/-- C2 (amended): for every completion-service response,
`estimate_impact` returns non-negative `people_affected` and
`severity_score` (the digit filter cannot produce a sign), and every
dispatched EventRecord inherits those bounds; severity_score is however
not clamped to 100. -/
theorem claim_C2_amended_impact_nonneg (resp : Option String) :
    0 ≤ (estimate_impact resp).1 ∧ 0 ≤ (estimate_impact resp).2 ∧
    (∀ (c : Collab) (eventId ts : String) (a : Article)
        (r : EventRecord) (effs : List Effect),
      process_event c eventId ts a = (.dispatched r, effs) →
      0 ≤ r.people_affected ∧ 0 ≤ r.severity_score) := by
  refine ⟨?_, ?_, ?_⟩
  · cases resp with
    | none => exact le_refl 0
    | some r => exact (parseImpact_nonneg (strip r)).1
  · cases resp with
    | none => exact le_refl 0
    | some r => exact (parseImpact_nonneg (strip r)).2
  · intro c eventId ts a r effs h
    obtain ⟨hr, _⟩ := process_event_dispatched h
    subst hr
    cases hresp : c.impactResp (a.title ++ "\n\n" ++ a.description) with
    | none =>
      constructor
      · show 0 ≤ (estimate_impact (c.impactResp _)).1
        rw [hresp]
        exact le_refl 0
      · show 0 ≤ (estimate_impact (c.impactResp _)).2
        rw [hresp]
        exact le_refl 0
    | some x =>
      constructor
      · show 0 ≤ (estimate_impact (c.impactResp _)).1
        rw [hresp]
        exact (parseImpact_nonneg (strip x)).1
      · show 0 ≤ (estimate_impact (c.impactResp _)).2
        rw [hresp]
        exact (parseImpact_nonneg (strip x)).2

/-- Witness for C2 (amended): the record clause at the sample pipeline
run. -/
theorem claim_C2_witness :
    0 ≤ (assembleRecord sampleCollab "id-0" "t0" sampleArticle).people_affected ∧
    0 ≤ (assembleRecord sampleCollab "id-0" "t0" sampleArticle).severity_score :=
  (claim_C2_amended_impact_nonneg none).2.2 sampleCollab "id-0" "t0"
    sampleArticle (assembleRecord sampleCollab "id-0" "t0" sampleArticle)
    ([.callClassify, .callImpact, .callSummary, .callGeocode, .callDonations,
      .sheetWrite (assembleRecord sampleCollab "id-0" "t0" sampleArticle),
      .gcsWrite "id-0" (assembleRecord sampleCollab "id-0" "t0" sampleArticle)] ++
      tweet_crisis sampleCollab.twitterCreds
        (assembleRecord sampleCollab "id-0" "t0" sampleArticle))
    (process_event_crisis (by decide))

/-- Counterexample to C3: a successful donation response that strips to
the empty string yields an empty list — the hardcoded fallback pair is
applied only on failure, so `donation_links` can be empty. -/
theorem claim_C3_counterexample :
    suggest_donations (some "") = [] := by decide

/-- C3 (amended): `suggest_donations` returns exactly the hardcoded
fallback pair on any failure or absent configuration; on a successful
response it returns the first at most three non-empty trimmed fragments,
which is non-empty whenever the response has at least one non-empty
fragment but empty when it has none. -/
theorem claim_C3_amended_suggest_donations :
    suggest_donations none =
      ["https://www.directrelief.org/", "https://www.unhcr.org/"] ∧
    suggest_donations none ≠ [] ∧
    (∀ r, suggest_donations (some r) =
      (donationFragments (strip r)).take 3) ∧
    (∀ r, donationFragments (strip r) ≠ [] →
      suggest_donations (some r) ≠ []) := by
  refine ⟨rfl, by decide, fun r => rfl, fun r h => ?_⟩
  rw [suggest_donations]
  intro heq
  rcases List.take_eq_nil_iff.mp heq with h3 | hf
  · exact absurd h3 (by decide)
  · exact absurd hf h

/-- Witness for C3 (amended): the non-empty-fragments clause at a
concrete successful response. -/
theorem claim_C3_witness :
    suggest_donations (some "Doctors Without Borders") ≠ [] :=
  claim_C3_amended_suggest_donations.2.2.2 "Doctors Without Borders"
    (by decide)

/-- C1: the claim states the intended contract — `extract_location`
returns the empty string, never an absent/None value, when no pattern is
recognized — but in src the def's body is only its docstring, so the code
returns None for every input: never a string at all.  The None hint is
falsy, so the downstream `or "Unknown"` resolution (main.py line 658)
still makes the resolved location exactly "Unknown"; evaluating the code
exhibits the divergence on every input. -/
theorem claim_C1_extract_location_returns_none (text : String) :
    extract_location text = none ∧
    (∀ s : String, extract_location text ≠ some s) ∧
    resolveLocationOpt (extract_location text) = "Unknown" :=
  ⟨rfl, fun _ h => Option.noConfusion h, rfl⟩

/-- Witness for C1: the code evaluated at a concrete input — a text with
a recognizable place name still extracts None (not ""), and the hint
resolves to "Unknown". -/
theorem claim_C1_witness :
    extract_location "Flood devastates Jakarta" = none ∧
    extract_location "Flood devastates Jakarta" ≠ some "" ∧
    resolveLocationOpt (extract_location "Flood devastates Jakarta") =
      "Unknown" := by
  have T := claim_C1_extract_location_returns_none "Flood devastates Jakarta"
  exact ⟨T.1, T.2.1 "", T.2.2⟩

/-- C4: an item classified as anything but "CRISIS" is filtered: the only
externally visible action is the classification call itself (no further
enrichment calls, no sink writes), `process_event` returns normally with
the skipped outcome, and the batch driver counts every article —
including filtered ones — as processed. -/
theorem claim_C4_not_crisis_filtered (c : Collab) (eventId ts : String)
    (a : Article)
    (h : classify_crisis
        (c.classifyResp (a.title ++ "\n\n" ++ a.description)) ≠ "CRISIS") :
    process_event c eventId ts a = (.skipped, [.callClassify]) ∧
    (∀ (ids tsg : Nat → String) (articles : List Article),
      (main c ids tsg articles).1 = articles.length) :=
  ⟨process_event_skipped h,
   fun ids tsg articles => mainLoop_count c ids tsg 0 articles⟩

/-- Witness for C4: a failing classification call on the sample article —
the item is skipped yet the batch of one article counts one processed. -/
theorem claim_C4_witness :
    process_event noCrisisCollab "id-0" "t0" sampleArticle =
      (.skipped, [.callClassify]) ∧
    (main noCrisisCollab constId constTs [sampleArticle]).1 = 1 := by
  have T := claim_C4_not_crisis_filtered noCrisisCollab "id-0" "t0"
    sampleArticle (by decide)
  exact ⟨T.1, T.2 constId constTs [sampleArticle]⟩

/-- C8: when the geocoding collaborator raises or returns no results for
an item that passed classification, the assembled record's coordinates
are exactly (0, 0) and the record is still dispatched to both sinks — the
failure never escapes the enrichment stage. -/
theorem claim_C8_geocode_failure (c : Collab) (eventId ts : String)
    (a : Article)
    (hc : classify_crisis
        (c.classifyResp (a.title ++ "\n\n" ++ a.description)) = "CRISIS")
    (hgeo : c.geoOutcome (resolveLocation a.location) = .raised ∨
      c.geoOutcome (resolveLocation a.location) = .results []) :
    (process_event c eventId ts a).1 =
      .dispatched (assembleRecord c eventId ts a) ∧
    (assembleRecord c eventId ts a).lat = 0 ∧
    (assembleRecord c eventId ts a).lng = 0 ∧
    Effect.sheetWrite (assembleRecord c eventId ts a) ∈
      (process_event c eventId ts a).2 ∧
    Effect.gcsWrite eventId (assembleRecord c eventId ts a) ∈
      (process_event c eventId ts a).2 := by
  have hpe := @process_event_crisis c eventId ts a hc
  have hlat : (assembleRecord c eventId ts a).lat = 0 := by
    show (geocode c.geoKey (c.geoOutcome (resolveLocation a.location))
      (resolveLocation a.location)).1 = 0
    rw [geocode_fail hgeo]
  have hlng : (assembleRecord c eventId ts a).lng = 0 := by
    show (geocode c.geoKey (c.geoOutcome (resolveLocation a.location))
      (resolveLocation a.location)).2 = 0
    rw [geocode_fail hgeo]
  rw [hpe]
  refine ⟨rfl, hlat, hlng, ?_, ?_⟩ <;> simp

/-- Witness for C8: the sample collaborators, whose geocoder raises. -/
theorem claim_C8_witness :
    (process_event sampleCollab "id-0" "t0" sampleArticle).1 =
      .dispatched (assembleRecord sampleCollab "id-0" "t0" sampleArticle) ∧
    (assembleRecord sampleCollab "id-0" "t0" sampleArticle).lat = 0 ∧
    (assembleRecord sampleCollab "id-0" "t0" sampleArticle).lng = 0 ∧
    Effect.sheetWrite (assembleRecord sampleCollab "id-0" "t0" sampleArticle) ∈
      (process_event sampleCollab "id-0" "t0" sampleArticle).2 ∧
    Effect.gcsWrite "id-0" (assembleRecord sampleCollab "id-0" "t0" sampleArticle) ∈
      (process_event sampleCollab "id-0" "t0" sampleArticle).2 :=
  claim_C8_geocode_failure sampleCollab "id-0" "t0" sampleArticle
    (by decide) (Or.inl rfl)

/-- A record whose 300-character summary pushes the first donation link
past the 280-character cut of the composed tweet. -/
def longSummaryRecord : EventRecord :=
  { timestamp := "t0"
    event_id := "id-2"
    location := "Atlantis"
    lat := 0
    lng := 0
    event_type := "Flood"
    title := "Flood"
    description := ""
    summary := String.mk (List.replicate 300 'a')
    people_affected := 5
    severity_score := 50
    donation_links := ["https://donate.example/"]
    source_url := "" }

set_option maxRecDepth 4000 in
/-- Counterexample to C9: for this dispatched record a social post is
attempted, but the posted text — the composed message cut to 280
characters — does not contain the record's first donation link: the
truncation runs over the composed message, so a long summary pushes the
trailing "Help:" link out of the post. -/
theorem claim_C9_counterexample :
    tweet_crisis true longSummaryRecord =
      [.tweetAttempt (pyTruncate 280
        (composeTweet longSummaryRecord "https://donate.example/"))] ∧
    containsSub "https://donate.example/".data
      (pyTruncate 280
        (composeTweet longSummaryRecord "https://donate.example/")).data =
      false := by
  constructor
  · rfl
  · rfl

/-- C9 (amended): when a social post is attempted for a dispatched record
the posted text is the composed message — location, people_affected,
event_type, the full summary (hence its first line), and the first
donation link, in that order — cut to its first 280 characters; all of
those parts are guaranteed to appear in the post only when the composed
message fits in 280 characters; the posting attempt comes after both sink
dispatches, never changes the outcome (credentials toggled on or off
leave it untouched), and an empty donation list only suppresses the post
(the IndexError is swallowed). -/
theorem claim_C9_amended_tweet (rec : EventRecord) (link : String)
    (rest : List String) (hlinks : rec.donation_links = link :: rest) :
    tweet_crisis true rec =
      [.tweetAttempt (pyTruncate 280 (composeTweet rec link))] ∧
    (pyTruncate 280 (composeTweet rec link)).data.length ≤ 280 ∧
    ((composeTweet rec link).data.length ≤ 280 →
      pyTruncate 280 (composeTweet rec link) = composeTweet rec link ∧
      containsSub rec.location.data
        (pyTruncate 280 (composeTweet rec link)).data = true ∧
      containsSub (toString rec.people_affected).data
        (pyTruncate 280 (composeTweet rec link)).data = true ∧
      containsSub rec.event_type.data
        (pyTruncate 280 (composeTweet rec link)).data = true ∧
      containsSub rec.summary.data
        (pyTruncate 280 (composeTweet rec link)).data = true ∧
      containsSub (splitFirst '\n' rec.summary.data).1
        (pyTruncate 280 (composeTweet rec link)).data = true ∧
      containsSub link.data
        (pyTruncate 280 (composeTweet rec link)).data = true) ∧
    (∀ (c : Collab) (b : Bool) (eventId ts : String) (a : Article),
      (process_event { c with twitterCreds := b } eventId ts a).1 =
        (process_event c eventId ts a).1) ∧
    (∀ (c : Collab) (eventId ts : String) (a : Article)
        (r : EventRecord) (effs : List Effect),
      process_event c eventId ts a = (.dispatched r, effs) →
      effs = [.callClassify, .callImpact, .callSummary, .callGeocode,
        .callDonations, .sheetWrite r, .gcsWrite eventId r] ++
        tweet_crisis c.twitterCreds r) ∧
    (∀ (b : Bool) (r : EventRecord), r.donation_links = [] →
      tweet_crisis b r = []) := by
  refine ⟨by simp [tweet_crisis, hlinks], pyTruncate_length_le 280 _,
    ?_, ?_, ?_, ?_⟩
  · intro hlen
    rw [pyTruncate_of_le hlen]
    have hsum : containsSub rec.summary.data
        (composeTweet rec link).data = true := by
      simp only [composeTweet, String.data_append]
      exact containsSub_append_left _ (containsSub_append_left _
        (containsSub_append_right _ (containsSub_self _)))
    refine ⟨rfl, ?_, ?_, ?_, hsum, ?_, ?_⟩
    · simp only [composeTweet, String.data_append]
      exact containsSub_append_left _ (containsSub_append_left _
        (containsSub_append_left _ (containsSub_append_left _
          (containsSub_append_left _ (containsSub_append_left _
            (containsSub_append_left _ (containsSub_append_left _
              (containsSub_append_right _ (containsSub_self _)))))))))
    · simp only [composeTweet, String.data_append]
      exact containsSub_append_left _ (containsSub_append_left _
        (containsSub_append_left _ (containsSub_append_left _
          (containsSub_append_left _ (containsSub_append_left _
            (containsSub_append_right _ (containsSub_self _)))))))
    · simp only [composeTweet, String.data_append]
      exact containsSub_append_left _ (containsSub_append_left _
        (containsSub_append_left _ (containsSub_append_left _
          (containsSub_append_right _ (containsSub_self _)))))
    · obtain ⟨tail, htail⟩ := splitFirst_fst_append '\n' rec.summary.data
      have hfl : containsSub (splitFirst '\n' rec.summary.data).1
          rec.summary.data = true := by
        rw [containsSub_eq_true_iff]
        exact ⟨[], tail, by simpa using htail⟩
      exact containsSub_trans hsum hfl
    · simp only [composeTweet, String.data_append]
      exact containsSub_append_right _ (containsSub_self _)
  · intro c b eventId ts a
    by_cases hc : classify_crisis
        (c.classifyResp (a.title ++ "\n\n" ++ a.description)) = "CRISIS"
    · rw [@process_event_crisis { c with twitterCreds := b } eventId ts a hc,
        process_event_crisis hc]
      rfl
    · rw [@process_event_skipped { c with twitterCreds := b } eventId ts a hc,
        process_event_skipped hc]
  · intro c eventId ts a r effs h
    exact (process_event_dispatched h).2
  · intro b r h
    cases b <;> simp [tweet_crisis, h]

/-- A record whose composed tweet fits in 280 characters. -/
def shortRecord : EventRecord :=
  { timestamp := "t0"
    event_id := "id-3"
    location := "Port City"
    lat := 0
    lng := 0
    event_type := "Flood"
    title := "T"
    description := "D"
    summary := "Rising seas flood the capital."
    people_affected := 400
    severity_score := 70
    donation_links := ["https://d.example/"]
    source_url := "" }

/-- Witness for C9 (amended): a short record whose post keeps every part,
including the first donation link. -/
theorem claim_C9_witness :
    tweet_crisis true shortRecord =
      [.tweetAttempt (pyTruncate 280
        (composeTweet shortRecord "https://d.example/"))] ∧
    containsSub "https://d.example/".data
      (pyTruncate 280
        (composeTweet shortRecord "https://d.example/")).data = true ∧
    containsSub "Port City".data
      (pyTruncate 280
        (composeTweet shortRecord "https://d.example/")).data = true := by
  have T := claim_C9_amended_tweet shortRecord "https://d.example/" [] rfl
  have I := T.2.2.1 (by decide)
  exact ⟨T.1, I.2.2.2.2.2.2, I.2.1⟩

end HelpSignal
